import Mathlib

/-!
Verification of the factor-scoring and backtesting engine of the
Python-Factor-Portfolio-Backtester repository.

The Python sources (`factor_calc.py`, `historical_factor_generator.py`,
`portfolio_constructor.py`, `backtester.py`) are shallowly embedded below.
Numbers are embedded as exact rationals (`ℚ`); a pandas `NaN` (missing value)
is embedded as `none : Option _`; a pandas sample standard deviation, whose
value is a square root, is embedded as a real number (`Real.sqrt` of the
rational sample variance).  A Python function that can raise an exception is
embedded with result type `Except String _`; a Python function that can
return `None` is embedded with an `Option` layer.
-/

namespace PFB

/-! ### pandas primitives -/

/-- pandas NaN-propagating mean over one row of a two-column frame
(`DataFrame.mean(axis=1)`, `skipna=True`): the mean of the available
values, `NaN` only when both are missing. -/
def mean2 (a b : Option ℚ) : Option ℚ :=
  match a, b with
  | some x, some y => some ((x + y) / 2)
  | some x, none => some x
  | none, some y => some y
  | none, none => none

/-- `Series.pct_change(fill_method=None)` on a column that may contain NaN:
entry `i` is `(x_i - x_(i-1)) / x_(i-1)`, NaN at index 0 and whenever either
neighbour is NaN. -/
def pctChangeO : List (Option ℚ) → List (Option ℚ)
  | [] => []
  | x :: xs => none :: go x xs
where
  go : Option ℚ → List (Option ℚ) → List (Option ℚ)
  | _, [] => []
  | prev, cur :: rest =>
    (match prev, cur with
     | some p, some c => some ((c - p) / p)
     | _, _ => none) :: go cur rest

/-- `Series.pct_change()` on an all-present column, with the leading NaN
already dropped (its consumers — `std`, which skips NaN — never see it). -/
def pctChangeQ : List ℚ → List ℚ
  | [] => []
  | _ :: [] => []
  | p :: c :: rest => (c - p) / p :: pctChangeQ (c :: rest)

/-- Sample mean of a list of rationals. -/
def sampleMean (xs : List ℚ) : ℚ := xs.sum / xs.length

/-- pandas sample variance (`ddof=1`): `Σ (x - μ)² / (n - 1)`. -/
def sampleVar (xs : List ℚ) : ℚ :=
  (xs.map (fun x => (x - sampleMean xs) ^ 2)).sum / (xs.length - 1 : ℚ)

/-- pandas `Series.std()` (sample standard deviation, `ddof=1`): NaN when
fewer than two observations, otherwise the square root of `sampleVar`. -/
noncomputable def stdRealO (xs : List ℚ) : Option ℝ :=
  if 2 ≤ xs.length then some (Real.sqrt ((sampleVar xs : ℚ) : ℝ)) else none

/-- Strict "ranks before" order used by `Series.rank(na_option='bottom')`:
NaN values are placed after every real value; `asc` selects
`ascending=True/False` on the real values. -/
def rankLt [LinearOrder α] (asc : Bool) : Option α → Option α → Bool
  | none, _ => false
  | some _, none => true
  | some a, some b => if asc then a < b else b < a

/-- Tie relation for `Series.rank` (`method='average'`): two NaNs tie, two
equal real values tie. -/
def rankTie [DecidableEq α] : Option α → Option α → Bool
  | none, none => true
  | some a, some b => a = b
  | _, _ => false

/-- `Series.rank(ascending=asc, na_option='bottom')` with the default
`method='average'`: the rank of an entry is (number of entries ranked
strictly before it) + (number of entries tied with it + 1) / 2. -/
def rankAvg [LinearOrder α] (asc : Bool) (vs : List (Option α)) : List ℚ :=
  vs.map fun v =>
    ((vs.countP fun w => rankLt asc w v : ℕ) : ℚ) +
      (((vs.countP fun w => rankTie w v : ℕ) : ℚ) + 1) / 2

/-- pandas `Series.quantile(k/6)` (the sextile grid used by `qcut(x, 6)`)
with the default linear interpolation: with sorted values
`v₀ ≤ … ≤ v_(n-1)` and `h = (k/6)·(n-1)`, the quantile is
`v_⌊h⌋ + (h - ⌊h⌋)·(v_(⌊h⌋+1) - v_⌊h⌋)`.  Since `h = k·(n-1)/6` with
`k·(n-1) : ℕ`, the floor is the natural division `k·(n-1) / 6` and the
fractional part is `(k·(n-1) mod 6) / 6`. -/
def pandasQuantile (xs : List ℚ) (k : ℕ) : ℚ :=
  let s := xs.insertionSort (· ≤ ·)
  let lo := k * (xs.length - 1) / 6
  let frac : ℚ := ((k * (xs.length - 1) % 6 : ℕ) : ℚ) / 6
  let vlo := s.getD lo 0
  let vhi := s.getD (lo + 1) vlo
  vlo + frac * (vhi - vlo)

/-- `pandas.core.algorithms.unique`: duplicates removed, first occurrences
kept in order (applied by `qcut` to the — sorted — quantile edges). -/
def uniqueFirst : List ℚ → List ℚ
  | [] => []
  | x :: xs => x :: uniqueFirst (xs.filter (· ≠ x))
termination_by l => l.length
decreasing_by
  exact Nat.lt_succ_of_le (List.length_filter_le _ _)

/-- `numpy.searchsorted(bins, x, side='left')`: the index of the first edge
that is `≥ x`, or `len(bins)` when there is none — i.e. the number of
leading edges that are `< x`. -/
def searchsortedLeft (bins : List ℚ) (x : ℚ) : ℕ :=
  (bins.takeWhile fun b => decide (b < x)).length

/-- `pd.qcut(x, 6, labels=False, duplicates='drop') + 1`, as applied to the
rank columns: quantile edges at `0, 1/6, …, 1` are computed, duplicate edges
are dropped (`_bins_to_cuts` with `duplicates='drop'`), each value is placed
by `searchsorted(..., side='left')`, values equal to the lowest edge are
moved into the first bin (`include_lowest=True`), and ids that fall at `0`
or at `len(bins)` become NaN.  With `labels=False` the emitted code is
`id - 1`, so after the `+ 1` the final score is the id itself. -/
def qcutScores (xs : List ℚ) : List (Option ℕ) :=
  let bins := uniqueFirst ((List.range 7).map fun k => pandasQuantile xs k)
  xs.map fun x =>
    let i0 := searchsortedLeft bins x
    let i := if bins.head? = some x then 1 else i0
    if i = 0 ∨ i = bins.length then none else some i

/-! ### Portfolio construction (`portfolio_constructor.py`, `backtester.py`) -/

/-- One row of the `factor_scores` table joined with its ticker, as read
back by `build_portfolio` / `build_portfolio_for_date`; a SQL NULL score is
`none`. -/
structure ScoreRow where
  ticker : String
  value_score : Option ℚ
  quality_score : Option ℚ
  momentum_score : Option ℚ
  low_volatility_score : Option ℚ
deriving DecidableEq

/-- One risk profile's weight vector over the four factor scores. -/
structure Weights where
  value_score : ℚ
  quality_score : ℚ
  momentum_score : ℚ
  low_volatility_score : ℚ
deriving DecidableEq

/-- The `FACTOR_WEIGHTS` table (identical in `portfolio_constructor.py` and
its replica in `backtester.py`); `none` models a key that is absent. -/
def FACTOR_WEIGHTS : String → Option Weights
  | "conservative" => some ⟨15/100, 40/100, 5/100, 40/100⟩
  | "balanced" => some ⟨25/100, 25/100, 25/100, 25/100⟩
  | "aggressive" => some ⟨40/100, 15/100, 40/100, 5/100⟩
  | _ => none

/-- The weighted sum of `backtester.calculate_composite_score`: every score
goes through `.fillna(0)` before the multiplication. -/
def compositeFill (w : Weights) (r : ScoreRow) : ℚ :=
  r.value_score.getD 0 * w.value_score +
  r.quality_score.getD 0 * w.quality_score +
  r.momentum_score.getD 0 * w.momentum_score +
  r.low_volatility_score.getD 0 * w.low_volatility_score

/-- The weighted sum of `portfolio_constructor.calculate_composite_score`:
no `fillna`, so a NaN in any factor propagates into the composite. -/
def compositeRaw (w : Weights) (r : ScoreRow) : Option ℚ :=
  match r.value_score, r.quality_score, r.momentum_score, r.low_volatility_score with
  | some v, some q, some m, some l =>
      some (v * w.value_score + q * w.quality_score +
            m * w.momentum_score + l * w.low_volatility_score)
  | _, _, _, _ => none

/-- `backtester.calculate_composite_score(scores_df, risk_profile)`:
`FACTOR_WEIGHTS[risk_profile]` raises `KeyError` on an unknown profile;
otherwise a `composite_score` column is added. -/
def calculate_composite_score_bt (risk_profile : String) (scores : List ScoreRow) :
    Except String (List (ScoreRow × ℚ)) :=
  match FACTOR_WEIGHTS risk_profile with
  | none => .error "KeyError"
  | some w => .ok (scores.map fun r => (r, compositeFill w r))

/-- `portfolio_constructor.calculate_composite_score(scores_df, risk_profile)`:
raises `ValueError` on an unknown profile, otherwise adds the (nullable)
composite column. -/
def calculate_composite_score_pc (risk_profile : String) (scores : List ScoreRow) :
    Except String (List (ScoreRow × Option ℚ)) :=
  if (FACTOR_WEIGHTS risk_profile).isSome then
    .ok (scores.map fun r => (r, (FACTOR_WEIGHTS risk_profile).bind fun w => compositeRaw w r))
  else .error "ValueError: Invalid risk profile specified."

/-- The momentum hard filter `momentum_score > 3`; a pandas comparison with
NaN is `False`, so a null momentum never passes. -/
def momGT3 (r : ScoreRow) : Bool :=
  match r.momentum_score with
  | some m => 3 < m
  | none => false

/-- Composite value as element of `WithBot ℚ`: pandas `sort_values`
(`ascending=False`) leaves NaN at the end, i.e. below every number. -/
def compositeKey : Option ℚ → WithBot ℚ
  | none => ⊥
  | some q => (q : WithBot ℚ)

/-- Descending order on nullable composite scores, NaN last. -/
def descRelO (a b : ScoreRow × Option ℚ) : Prop := compositeKey b.2 ≤ compositeKey a.2

/-- Descending order on (always present) composite scores. -/
def descRelQ (a b : ScoreRow × ℚ) : Prop := b.2 ≤ a.2

instance : DecidableRel descRelO := fun a b => by
  unfold descRelO; infer_instance

instance : DecidableRel descRelQ := fun a b => by
  unfold descRelQ; infer_instance

instance : IsTotal (ScoreRow × Option ℚ) descRelO :=
  ⟨fun a b => le_total (compositeKey b.2) (compositeKey a.2)⟩

instance : IsTrans (ScoreRow × Option ℚ) descRelO :=
  ⟨fun _ _ _ h h' => le_trans h' h⟩

instance : IsTotal (ScoreRow × ℚ) descRelQ := ⟨fun a b => le_total b.2 a.2⟩

instance : IsTrans (ScoreRow × ℚ) descRelQ := ⟨fun _ _ _ h h' => le_trans h' h⟩

/-- `portfolio_constructor.build_portfolio(risk_profile, num_stocks)`, with
the rows returned by `get_latest_factor_scores` passed in explicitly.  The
body runs inside `try/except Exception`, which prints the error and returns
`None` — so an invalid profile yields `none`, not an exception.  Otherwise:
composite scores are computed for every row, the momentum filter
`momentum_score > 3` is applied, rows are sorted descending by composite
(NaN last) and the first `num_stocks` are returned. -/
def build_portfolio (latest_scores : List ScoreRow) (risk_profile : String)
    (num_stocks : ℕ) : Option (List (ScoreRow × Option ℚ)) :=
  match calculate_composite_score_pc risk_profile latest_scores with
  | .error _ => none
  | .ok scored =>
      some (((scored.filter fun p => momGT3 p.1).insertionSort descRelO).take num_stocks)

/-- `backtester.build_portfolio_for_date(target_date, risk_profile,
num_stocks)`, with the rows found for the target date passed in explicitly.
An empty result set returns `None`; otherwise rows with null momentum are
dropped (`dropna(subset=['momentum_score'])`), the filter
`momentum_score > 3` is applied, composite scores are computed
(`fillna(0)` version — `KeyError` on an unknown profile propagates, there
is no `except` here), and the rows are sorted descending and truncated to
`num_stocks`. -/
def build_portfolio_for_date (scores_for_date : List ScoreRow)
    (risk_profile : String) (num_stocks : ℕ) :
    Except String (Option (List (ScoreRow × ℚ))) :=
  if scores_for_date = [] then .ok none
  else
    let valid := scores_for_date.filter fun r => r.momentum_score ≠ none
    let filtered := valid.filter momGT3
    match calculate_composite_score_bt risk_profile filtered with
    | .error e => .error e
    | .ok scored => .ok (some ((scored.insertionSort descRelQ).take num_stocks))

/-! ### Weighting engine and backtest simulator (`backtester.py`) -/

/-- A price DataFrame, column-oriented: one `(ticker, close-price column)`
per holding; all columns have the same number of rows and a missing price
is `none`. -/
def PriceTable := List (String × List (Option ℚ))

/-- Number of rows of a price table. -/
def numRows (t : List (String × List (Option ℚ))) : ℕ :=
  (t.map fun c => c.2.length).foldr max 0

/-- `DataFrame.dropna()` (default `how='any'`) on a column-oriented frame:
the indices of the rows in which every column has a value. -/
def fullRows (cols : List (String × List (Option ℚ))) (n : ℕ) : List ℕ :=
  (List.range n).filter fun i => cols.all fun c => (c.2.getD i none).isSome

/-- `DataFrame.empty`: true when there are no columns or no rows. -/
def tableEmpty (t : List (String × List (Option ℚ))) : Bool :=
  t.length = 0 || t.all fun c => c.2.length = 0

/-- The trailing volatilities computed inside `calculate_weights` for the
`inverse_volatility` scheme:
`returns = prices.pct_change(fill_method=None).dropna()` followed by
`returns.std()` column-wise (`none` when a column has fewer than two
surviving observations). -/
noncomputable def trailingVols (prices : List (String × List (Option ℚ))) :
    List (String × Option ℝ) :=
  let retCols := prices.map fun c => (c.1, pctChangeO c.2)
  let keep := fullRows retCols (numRows retCols)
  retCols.map fun c => (c.1, stdRealO (keep.map fun i => (c.2.getD i none).getD 0))

/-- `volatility.replace(0, np.nan)`: a trailing volatility of exactly `0`
becomes NaN so that it cannot be inverted. -/
noncomputable def volsReplaced (prices : List (String × List (Option ℚ))) :
    List (String × Option ℝ) :=
  (trailingVols prices).map fun c => (c.1, c.2.bind fun v => if v = 0 then none else some v)

/-- `inverse_vol = 1 / volatility` (NaN propagates). -/
noncomputable def invVols (prices : List (String × List (Option ℚ))) :
    List (String × Option ℝ) :=
  (volsReplaced prices).map fun c => (c.1, c.2.map fun v => v⁻¹)

/-- `inverse_vol.sum()` — a pandas sum skips NaN, which counts as `0`. -/
noncomputable def invVolSum (prices : List (String × List (Option ℚ))) : ℝ :=
  ((invVols prices).map fun c => c.2.getD 0).sum

/-- `inverse_vol / inverse_vol.sum()` — the final inverse-volatility
weights (NaN stays NaN). -/
noncomputable def inverse_volatility_weights (prices : List (String × List (Option ℚ))) :
    List (String × Option ℝ) :=
  (invVols prices).map fun c => (c.1, c.2.map fun v => v / invVolSum prices)

/-- `backtester.calculate_weights(prices, scheme)`.
`equal`: `1 / len(prices.columns)` for every column (`ZeroDivisionError`
when there are no columns).  `inverse_volatility`: column volatilities with
`0` replaced by NaN (`volatility.replace(0, np.nan)`), inverted, and
normalized by the NaN-skipping sum.  Any other scheme falls off the end of
the `if/elif` and silently returns `None` (`.ok none`). -/
noncomputable def calculate_weights (prices : List (String × List (Option ℚ)))
    (scheme : String) : Except String (Option (List (String × Option ℝ))) :=
  if scheme = "equal" then
    if prices.length = 0 then .error "ZeroDivisionError"
    else .ok (some (prices.map fun c => (c.1, some ((prices.length : ℝ)⁻¹))))
  else if scheme = "inverse_volatility" then
    .ok (some (inverse_volatility_weights prices))
  else .ok none

/-- Weight of a ticker after pandas index alignment in
`daily_returns * weights`: `none` both for a null weight and for a ticker
absent from the weight series (either way the product is NaN). -/
def lookupW (w : List (String × Option ℝ)) (t : String) : Option ℝ :=
  match w.find? fun p => p.1 = t with
  | some p => p.2
  | none => none

/-- The holding-period series of `run_backtest`:
`daily_returns = prices_for_returns.pct_change(fill_method=None).dropna()`
(dropping every row in which any column is NaN), then
`(daily_returns * weights).sum(axis=1)` — the NaN-skipping row sum of the
weighted returns, a NaN product (null weight or absent ticker)
contributing `0`. -/
noncomputable def periodReturns (weights : List (String × Option ℝ))
    (prices : List (String × List (Option ℚ))) : List ℝ :=
  let retCols := prices.map fun c => (c.1, pctChangeO c.2)
  let keep := fullRows retCols (numRows retCols)
  keep.map fun i =>
    (retCols.map fun c =>
      match lookupW weights c.1, c.2.getD i none with
      | some w, some r => w * ((r : ℚ) : ℝ)
      | _, _ => 0).sum

/-- The per-period rule exactly as claim C9 words it (for comparison with
the code's `periodReturns`): an entry for every day on which AT LEAST ONE
holding has an observable return, summing `weight_i · return_i` over
exactly the holdings observable that day. -/
noncomputable def periodReturnsClaimed (weights : List (String × Option ℝ))
    (prices : List (String × List (Option ℚ))) : List ℝ :=
  let retCols := prices.map fun c => (c.1, pctChangeO c.2)
  ((List.range (numRows retCols)).filter fun i =>
      retCols.any fun c => (c.2.getD i none).isSome).map fun i =>
    (retCols.map fun c =>
      match lookupW weights c.1, c.2.getD i none with
      | some w, some r => w * ((r : ℚ) : ℝ)
      | _, _ => 0).sum

/-- The amended per-period rule: an entry only for the days on which EVERY
fetched holding has an observable return (`dropna` drops any row with a
missing value), the entry being `Σ weight_i · return_i` with a null or
missing weight contributing `0`. -/
noncomputable def periodReturnsAllDays (weights : List (String × Option ℝ))
    (prices : List (String × List (Option ℚ))) : List ℝ :=
  let retCols := prices.map fun c => (c.1, pctChangeO c.2)
  ((List.range (numRows retCols)).filter fun i =>
      retCols.all fun c => (c.2.getD i none).isSome).map fun i =>
    (retCols.map fun c =>
      (lookupW weights c.1).getD 0 * (((c.2.getD i none).getD 0 : ℚ) : ℝ)).sum

/-- One iteration of the rebalance loop of `run_backtest`, for the period
`[d, dEnd)`.  `getPrices tickers start stop` stands for
`get_stock_prices(tickers, start, stop)` (the yfinance download, an
external collaborator).  `.ok []` is a skipped period (`continue`);
`.error` is a raised exception — in particular `weights.index` on the
`None` returned by `calculate_weights` for an unknown scheme raises
`AttributeError`. -/
noncomputable def periodStep (risk_profile weighting_scheme : String) (num_stocks : ℕ)
    (scoresFor : Int → List ScoreRow)
    (getPrices : List String → Int → Int → List (String × List (Option ℚ)))
    (d dEnd : Int) : Except String (List ℝ) :=
  match build_portfolio_for_date (scoresFor d) risk_profile num_stocks with
  | .error e => .error e
  | .ok none => .ok []
  | .ok (some pf) =>
    if pf = [] then .ok []
    else
      let tickers := pf.map fun p => p.1.ticker
      let pw := getPrices tickers (d - 365) d
      if tableEmpty pw then .ok []
      else
        match calculate_weights pw weighting_scheme with
        | .error e => .error e
        | .ok none => .error "AttributeError"
        | .ok (some w) =>
          let pr := getPrices (w.map fun p => p.1) d dEnd
          if tableEmpty pr then .ok []
          else .ok (periodReturns w pr)

/-- The rebalance loop of `run_backtest` over consecutive date pairs,
concatenating the non-skipped periods' return series in order. -/
noncomputable def runPeriods (risk_profile weighting_scheme : String) (num_stocks : ℕ)
    (scoresFor : Int → List ScoreRow)
    (getPrices : List String → Int → Int → List (String × List (Option ℚ))) :
    List (Int × Int) → Except String (List ℝ)
  | [] => .ok []
  | (d, dEnd) :: rest =>
    match periodStep risk_profile weighting_scheme num_stocks scoresFor getPrices d dEnd with
    | .error e => .error e
    | .ok contrib =>
      match runPeriods risk_profile weighting_scheme num_stocks scoresFor getPrices rest with
      | .error e => .error e
      | .ok more => .ok (contrib ++ more)

/-- `backtester.run_backtest(...)`.  `rebalance_dates` stands for
`pd.date_range(start, end, freq='BQS')` (the business-quarter-start
sequence, passed in already materialized); the loop
`for i in range(len(rebalance_dates) - 1)` pairs each date with its
successor, which is exactly `rebalance_dates.zip rebalance_dates.tail`.
When no period contributes, the result is the explicit empty series. -/
noncomputable def run_backtest (risk_profile weighting_scheme : String)
    (rebalance_dates : List Int) (num_stocks : ℕ)
    (scoresFor : Int → List ScoreRow)
    (getPrices : List String → Int → Int → List (String × List (Option ℚ))) :
    Except String (List ℝ) :=
  runPeriods risk_profile weighting_scheme num_stocks scoresFor getPrices
    (rebalance_dates.zip rebalance_dates.tail)

/-! ### Performance evaluator (`backtester.py`) -/

/-- The four metrics of `calculate_performance_metrics`; `none` is the
`"N/A"` sentinel (the final percent/ratio string formatting is dropped). -/
structure PerfMetrics where
  totalReturn : Option ℚ
  annualizedReturn : Option ℝ
  annualizedVolatility : Option ℝ
  sharpe : Option ℝ

/-- `backtester.calculate_performance_metrics(returns)`: every metric is
`"N/A"` when the series is empty or shorter than 2; otherwise
`total_return = Π(1+r) - 1`,
`annualized_return = (1+total_return)^(252/len) - 1`,
`annualized_volatility = returns.std() * sqrt(252)`, and
`sharpe = annualized_return / annualized_volatility` guarded to `0.0` when
the volatility is exactly zero. -/
noncomputable def calculate_performance_metrics (returns : List ℚ) : PerfMetrics :=
  if returns.length < 2 then ⟨none, none, none, none⟩
  else
    let total_return : ℚ := (returns.map fun r => 1 + r).prod - 1
    let annualized_return : ℝ :=
      (1 + (total_return : ℝ)) ^ ((252 : ℝ) / (returns.length : ℝ)) - 1
    let annualized_volatility : ℝ :=
      Real.sqrt ((sampleVar returns : ℚ) : ℝ) * Real.sqrt 252
    let sharpe : ℝ :=
      if annualized_volatility ≠ 0 then annualized_return / annualized_volatility else 0
    ⟨some total_return, some annualized_return, some annualized_volatility, some sharpe⟩

/-! ### Historical factor generation (`historical_factor_generator.py`) -/

/-- One row of `daily_prices`; dates are day numbers. -/
structure PriceRow where
  stock_id : ℕ
  date : Int
  close_price : ℚ
deriving DecidableEq

/-- One row of `fundamental_data` (`pe`, `pb` stand for the source columns
named after the P/E and P/B ratios); an absent field is `none`. -/
structure FundamentalRow where
  stock_id : ℕ
  date_recorded : Int
  pe : Option ℚ
  pb : Option ℚ
  roe : Option ℚ
  debt_equity : Option ℚ
deriving DecidableEq

/-- The relational store as seen by the generator: `stocks`,
`daily_prices`, `fundamental_data`. -/
structure DB where
  stocks : List (ℕ × String)
  daily_prices : List PriceRow
  fundamental_data : List FundamentalRow
deriving DecidableEq

/-- One output row for the `factor_scores` table. -/
structure FactorScoreRecord where
  stock_id : ℕ
  value_score : Option ℕ
  quality_score : Option ℕ
  momentum_score : Option ℕ
  low_volatility_score : Option ℕ
  date_calculated : Int
deriving DecidableEq

/-- The prices query of `calculate_factors_for_date`:
`date <= target_date AND date >= target_date - 550 days`. -/
def pricesInWindow (target_date : Int) (db : DB) : List PriceRow :=
  db.daily_prices.filter fun r => r.date ≤ target_date && target_date - 550 ≤ r.date

/-- Most recent `date_recorded` of a stock over the whole
`fundamental_data` table (the subquery `SELECT stock_id, MAX(date_recorded)
... GROUP BY stock_id` — note: not bounded by the target date). -/
def maxDateRecorded (rows : List FundamentalRow) (s : ℕ) : Option Int :=
  ((rows.filter fun f => f.stock_id = s).map fun f => f.date_recorded).max?

/-- The fundamentals query of `calculate_factors_for_date`: the rows whose
`date_recorded` equals their stock's maximum over the entire table. -/
def fundamentalsSnapshot (rows : List FundamentalRow) : List FundamentalRow :=
  rows.filter fun f => maxDateRecorded rows f.stock_id = some f.date_recorded

/-- The close-price column of one stock inside the queried window, sorted
by date (`sort_values(by=['stock_id','date'])` restricted to the group). -/
def stockCloses (pw : List PriceRow) (s : ℕ) : List ℚ :=
  ((pw.filter fun r => r.stock_id = s).insertionSort fun a b => a.date ≤ b.date).map
    fun r => r.close_price

/-- The trailing return over `k` trading days at the last row of a stock's
group: `shift(k)` at the final row exists iff the group has more than `k`
rows, and the return is `(close - close_k_ago) / close_k_ago`. -/
def returnK (closes : List ℚ) (k : ℕ) : Option ℚ :=
  match closes.getLast? with
  | none => none
  | some c =>
    if k < closes.length then
      let a := closes.getD (closes.length - 1 - k) 0
      some ((c - a) / a)
    else none

/-- `momentum_raw = return_12m*0.4 + return_6m*0.3 + return_3m*0.2 +
return_1m*0.1`, NaN as soon as any window lacks history.  The trading-day
windows are 252/126/63/21 rows. -/
def momentumRaw (closes : List ℚ) : Option ℚ :=
  match returnK closes 252, returnK closes 126, returnK closes 63, returnK closes 21 with
  | some r12, some r6, some r3, some r1 =>
      some (r12 * (4/10) + r6 * (3/10) + r3 * (2/10) + r1 * (1/10))
  | _, _, _, _ => none

/-- `volatility_raw`: the sample standard deviation of the stock's daily
percentage returns over the window (the leading NaN of `pct_change` is
skipped by `std`). -/
noncomputable def volatilityRaw (closes : List ℚ) : Option ℝ :=
  stdRealO (pctChangeQ closes)

/-- The computation of `calculate_factors_for_date` after its three queries
have been materialized (`stocks_df`, `prices_df`, `fundamentals_df`): the
early `None` on missing data, the per-stock raw factors, the cross-sectional
ranks (`na_option='bottom'`, value/quality on row-wise means of the
fundamentals, momentum descending, volatility ascending), and the hexile
scores via `qcut`. -/
noncomputable def calcCore (stocks : List (ℕ × String)) (pw : List PriceRow)
    (snapshot : List FundamentalRow) (target_date : Int) :
    Option (List FactorScoreRecord) :=
  if pw = [] ∨ snapshot = [] then none
  else
    let fund := fun s => snapshot.find? fun f => f.stock_id = s
    let valueMeans := stocks.map fun p => (fund p.1).bind fun f => mean2 f.pe f.pb
    let qualityMeans := stocks.map fun p => (fund p.1).bind fun f => mean2 f.roe f.debt_equity
    let moms := stocks.map fun p => momentumRaw (stockCloses pw p.1)
    let vols := stocks.map fun p => volatilityRaw (stockCloses pw p.1)
    let value_scores := qcutScores (rankAvg true valueMeans)
    let quality_scores := qcutScores (rankAvg false qualityMeans)
    let momentum_scores := qcutScores (rankAvg false moms)
    let vol_scores := qcutScores (rankAvg true vols)
    some ((List.range stocks.length).map fun i =>
      { stock_id := (stocks.getD i (0, "")).1
        value_score := value_scores.getD i none
        quality_score := quality_scores.getD i none
        momentum_score := momentum_scores.getD i none
        low_volatility_score := vol_scores.getD i none
        date_calculated := target_date })

/-- `historical_factor_generator.calculate_factors_for_date(target_date,
conn)`: materialize the three queries, then run the factor computation. -/
noncomputable def calculate_factors_for_date (target_date : Int) (db : DB) :
    Option (List FactorScoreRecord) :=
  calcCore db.stocks (pricesInWindow target_date db)
    (fundamentalsSnapshot db.fundamental_data) target_date

/-! ### Specification-side predicates and concrete test fixtures -/

/-- The spec's range condition on one bucket score: an integer in `[1,6]`
or null. -/
def scoreOK (s : Option ℕ) : Prop := s = none ∨ ∃ k, s = some k ∧ 1 ≤ k ∧ k ≤ 6

/-- The three recognized risk profiles. -/
def validProfile (p : String) : Prop :=
  p = "conservative" ∨ p = "balanced" ∨ p = "aggressive"

/-- A two-stock fixture of factor-score rows: one passes the momentum
filter, one fails it. -/
def sampleRows : List ScoreRow :=
  [⟨"A", some 1, some 2, some 5, some 3⟩, ⟨"B", some 2, some 2, some 2, some 2⟩]

/-- A two-column trailing-price fixture: column `A` has constant returns
(zero volatility), column `B` has varying returns. -/
def wTable : List (String × List (Option ℚ)) :=
  [("A", [some 1, some 2, some 4]), ("B", [some 1, some 2, some 3])]

/-- Equal weights for two holdings. -/
noncomputable def eqWeights : List (String × Option ℝ) :=
  [("A", some (1/2)), ("B", some (1/2))]

/-- A forward-price fixture in which holding `B` misses a price on day 2,
so days 2 and 3 have an observable return for `A` only. -/
def gapTable : List (String × List (Option ℚ)) :=
  [("A", [some 1, some 2, some 4, some 8]), ("B", [some 1, some 2, none, some 2])]

/-- Fundamental snapshot of stock 1 recorded at day 5 (cheap: P/E = P/B = 10). -/
def fundA : FundamentalRow := ⟨1, 5, some 10, some 10, some 10, some 1⟩

/-- Fundamental snapshot of stock 2 recorded at day 5 (P/E = P/B = 20). -/
def fundB : FundamentalRow := ⟨2, 5, some 20, some 20, some 5, some 2⟩

/-- A later fundamental snapshot of stock 1, recorded at day 30 — after the
as-of date 20 used in the point-in-time experiments — with a very high
P/E and P/B. -/
def fundAfut : FundamentalRow := ⟨1, 30, some 1000, some 1000, some 10, some 1⟩

/-- A two-stock database whose fundamentals are all recorded before the
as-of date 20. -/
def db1 : DB := ⟨[(1, "A"), (2, "B")], [⟨1, 10, 100⟩], [fundA, fundB]⟩

/-- `db1` with one additional fundamental row recorded AFTER the as-of
date 20. -/
def db2 : DB := ⟨db1.stocks, db1.daily_prices, db1.fundamental_data ++ [fundAfut]⟩

/-- `db1` with one additional price row dated AFTER the as-of date 20. -/
def db1p : DB := ⟨db1.stocks, db1.daily_prices ++ [⟨1, 40, 999⟩], db1.fundamental_data⟩

/-! ### General lemmas -/

theorem uniqueFirst_length_le (l : List ℚ) : (uniqueFirst l).length ≤ l.length := by
  induction l using uniqueFirst.induct with
  | case1 => simp [uniqueFirst]
  | case2 x xs ih =>
    rw [uniqueFirst]
    simpa using Nat.succ_le_succ (le_trans ih (List.length_filter_le _ _))

theorem searchsortedLeft_le (bins : List ℚ) (x : ℚ) :
    searchsortedLeft bins x ≤ bins.length := by
  unfold searchsortedLeft
  exact (List.takeWhile_sublist _).length_le

theorem qcut_scoreOK (xs : List ℚ) (s : Option ℕ) (hs : s ∈ qcutScores xs) : scoreOK s := by
  unfold qcutScores at hs
  obtain ⟨x, hx, rfl⟩ := List.mem_map.1 hs
  dsimp only
  set bins := uniqueFirst ((List.range 7).map fun k => pandasQuantile xs k) with hbins
  have hlen : bins.length ≤ 7 := by
    simpa [hbins] using uniqueFirst_length_le ((List.range 7).map fun k => pandasQuantile xs k)
  have hsearch : searchsortedLeft bins x ≤ bins.length := searchsortedLeft_le bins x
  set i := (if bins.head? = some x then 1 else searchsortedLeft bins x) with hi
  by_cases hmask : i = 0 ∨ i = bins.length
  · exact Or.inl (by simp [hmask])
  · refine Or.inr ⟨i, by simp [hmask], ?_, ?_⟩
    · push_neg at hmask
      omega
    · have hcase : i = 1 ∨ i = searchsortedLeft bins x := by
        rw [hi]
        split
        · exact Or.inl rfl
        · exact Or.inr rfl
      push_neg at hmask
      rcases hcase with h | h <;> omega

theorem scoreOK_getD (l : List (Option ℕ)) (hl : ∀ s ∈ l, scoreOK s) (i : ℕ) :
    scoreOK (l.getD i none) := by
  rcases Nat.lt_or_ge i l.length with h | h
  · rw [List.getD_eq_getElem l none h]
    exact hl _ (List.getElem_mem h)
  · rw [List.getD_eq_default]
    · exact Or.inl rfl
    · exact h

theorem calc_scores_scoreOK (D : Int) (db : DB) (recs : List FactorScoreRecord)
    (h : calculate_factors_for_date D db = some recs) :
    ∀ r ∈ recs, scoreOK r.value_score ∧ scoreOK r.quality_score ∧
      scoreOK r.momentum_score ∧ scoreOK r.low_volatility_score := by
  unfold calculate_factors_for_date calcCore at h
  split at h
  · exact absurd h (by simp)
  · rw [Option.some_inj] at h
    subst h
    intro r hr
    obtain ⟨i, hi, rfl⟩ := List.mem_map.1 hr
    exact ⟨scoreOK_getD _ (fun s hs => qcut_scoreOK _ s hs) i,
      scoreOK_getD _ (fun s hs => qcut_scoreOK _ s hs) i,
      scoreOK_getD _ (fun s hs => qcut_scoreOK _ s hs) i,
      scoreOK_getD _ (fun s hs => qcut_scoreOK _ s hs) i⟩

theorem validProfile_weights (p : String) (hp : validProfile p) :
    ∃ w, FACTOR_WEIGHTS p = some w := by
  rcases hp with h | h | h <;> subst h <;> exact ⟨_, rfl⟩

theorem momGT3_spec (r : ScoreRow) (h : momGT3 r = true) :
    ∃ m, r.momentum_score = some m ∧ 3 < m := by
  unfold momGT3 at h
  rcases hm : r.momentum_score with _ | m
  · rw [hm] at h
    simp at h
  · rw [hm] at h
    simp at h
    exact ⟨m, rfl, h⟩

theorem build_portfolio_for_date_props (rows : List ScoreRow) (profile : String) (N : ℕ)
    (hp : validProfile profile) (hrows : rows ≠ []) :
    ∃ l, build_portfolio_for_date rows profile N = .ok (some l) ∧
      l.length ≤ N ∧
      (∀ p ∈ l, ∃ m, p.1.momentum_score = some m ∧ 3 < m) ∧
      l.Sorted descRelQ ∧
      (((rows.filter fun r => r.momentum_score ≠ none).filter momGT3).length ≤ N →
        (l.map Prod.fst).Perm ((rows.filter fun r => r.momentum_score ≠ none).filter momGT3)) := by
  obtain ⟨w, hw⟩ := validProfile_weights profile hp
  unfold build_portfolio_for_date
  rw [if_neg hrows]
  unfold calculate_composite_score_bt
  rw [hw]
  dsimp only
  set survivors := (rows.filter fun r => r.momentum_score ≠ none).filter momGT3 with hsurv
  set scored := survivors.map fun r => (r, compositeFill w r) with hscored
  refine ⟨_, rfl, ?_, ?_, ?_, ?_⟩
  · exact List.length_take_le _ _
  · intro p hpmem
    have h1 : p ∈ scored.insertionSort descRelQ := (List.take_subset _ _) hpmem
    have h2 : p ∈ scored := (List.perm_insertionSort descRelQ scored).mem_iff.1 h1
    obtain ⟨r, hr, rfl⟩ := List.mem_map.1 h2
    exact momGT3_spec r (List.of_mem_filter hr)
  · exact List.Pairwise.sublist (List.take_sublist _ _) (List.sorted_insertionSort _ _)
  · intro hlen
    have hlen2 : (scored.insertionSort descRelQ).length ≤ N := by
      rw [List.length_insertionSort]
      simpa [hscored] using hlen
    rw [List.take_of_length_le hlen2]
    have hperm : (scored.insertionSort descRelQ).Perm scored := List.perm_insertionSort _ _
    refine (hperm.map Prod.fst).trans ?_
    rw [hscored, List.map_map]
    exact List.Perm.of_eq (List.map_id survivors)

theorem build_portfolio_props (rows : List ScoreRow) (profile : String) (N : ℕ)
    (hp : validProfile profile) :
    ∃ l, build_portfolio rows profile N = some l ∧
      l.length ≤ N ∧
      (∀ p ∈ l, ∃ m, p.1.momentum_score = some m ∧ 3 < m) ∧
      l.Sorted descRelO ∧
      ((rows.filter momGT3).length ≤ N →
        (l.map Prod.fst).Perm (rows.filter momGT3)) := by
  obtain ⟨w, hw⟩ := validProfile_weights profile hp
  unfold build_portfolio calculate_composite_score_pc
  rw [hw]
  simp only [Option.isSome_some, if_true]
  have hfm : ((rows.map fun r => (r, (some w).bind fun w' => compositeRaw w' r)).filter
      fun p => momGT3 p.1) =
      (rows.filter momGT3).map fun r => (r, (some w).bind fun w' => compositeRaw w' r) := by
    rw [List.filter_map]
    rfl
  rw [hfm]
  set f := fun r => (r, (some w).bind fun w' => compositeRaw w' r) with hf
  set survivors := rows.filter momGT3 with hsurv
  refine ⟨_, rfl, ?_, ?_, ?_, ?_⟩
  · exact List.length_take_le _ _
  · intro p hpmem
    have h1 : p ∈ (survivors.map f).insertionSort descRelO := (List.take_subset _ _) hpmem
    have h2 : p ∈ survivors.map f := (List.perm_insertionSort descRelO _).mem_iff.1 h1
    obtain ⟨r, hr, rfl⟩ := List.mem_map.1 h2
    exact momGT3_spec r (List.of_mem_filter hr)
  · exact List.Pairwise.sublist (List.take_sublist _ _) (List.sorted_insertionSort _ _)
  · intro hlen
    have hlen2 : ((survivors.map f).insertionSort descRelO).length ≤ N := by
      rw [List.length_insertionSort]
      simpa using hlen
    rw [List.take_of_length_le hlen2]
    have hperm : ((survivors.map f).insertionSort descRelO).Perm (survivors.map f) :=
      List.perm_insertionSort _ _
    refine (hperm.map Prod.fst).trans ?_
    rw [List.map_map]
    exact List.Perm.of_eq (List.map_id survivors)

/-! ### Claims -/

/-- C2: for every score set, recognized risk profile and `N ≥ 0`, the
portfolio built by `build_portfolio_for_date` (given a non-empty score set)
and by `build_portfolio` has at most `N` rows, contains no row with null
momentum or momentum `≤ 3`, is sorted descending by composite score (NaN
last), and — when the momentum-filter survivors number at most `N` — is
exactly the survivors, with no padding and no error. -/
theorem C2_build_portfolio_top_n (rows : List ScoreRow) (profile : String) (N : ℕ)
    (hp : validProfile profile) :
    (rows ≠ [] →
      ∃ l, build_portfolio_for_date rows profile N = .ok (some l) ∧
        l.length ≤ N ∧
        (∀ p ∈ l, ∃ m, p.1.momentum_score = some m ∧ 3 < m) ∧
        l.Sorted descRelQ ∧
        (((rows.filter fun r => r.momentum_score ≠ none).filter momGT3).length ≤ N →
          (l.map Prod.fst).Perm ((rows.filter fun r => r.momentum_score ≠ none).filter momGT3))) ∧
    (∃ l, build_portfolio rows profile N = some l ∧
      l.length ≤ N ∧
      (∀ p ∈ l, ∃ m, p.1.momentum_score = some m ∧ 3 < m) ∧
      l.Sorted descRelO ∧
      ((rows.filter momGT3).length ≤ N →
        (l.map Prod.fst).Perm (rows.filter momGT3))) :=
  ⟨fun hrows => build_portfolio_for_date_props rows profile N hp hrows,
    build_portfolio_props rows profile N hp⟩

/-- Witness for C2 on a concrete two-row score set, balanced profile, `N = 1`. -/
theorem C2_build_portfolio_top_n_witness :
    ∃ l, build_portfolio_for_date sampleRows "balanced" 1 = .ok (some l) ∧
      l.length ≤ 1 ∧
      (∀ p ∈ l, ∃ m, p.1.momentum_score = some m ∧ 3 < m) ∧
      l.Sorted descRelQ ∧
      (((sampleRows.filter fun r => r.momentum_score ≠ none).filter momGT3).length ≤ 1 →
        (l.map Prod.fst).Perm ((sampleRows.filter fun r => r.momentum_score ≠ none).filter momGT3)) :=
  (C2_build_portfolio_top_n sampleRows "balanced" 1 (Or.inr (Or.inl rfl))).1
    (by simp [sampleRows])

/-- C3 (amended): in `backtester.calculate_composite_score` every row gets
the numeric composite `Σ weight_f · fillna(score_f, 0)`; in
`portfolio_constructor.calculate_composite_score` the composite equals
`Σ weight_f · score_f` only when all four scores are present, and is null
(NaN) as soon as any factor score is null — a row with null scores is not
given a numeric composite there. -/
theorem C3_composite_null_amended (profile : String) (w : Weights) (rows : List ScoreRow)
    (h : FACTOR_WEIGHTS profile = some w) :
    (calculate_composite_score_bt profile rows = .ok (rows.map fun r => (r,
      r.value_score.getD 0 * w.value_score + r.quality_score.getD 0 * w.quality_score +
      r.momentum_score.getD 0 * w.momentum_score +
      r.low_volatility_score.getD 0 * w.low_volatility_score))) ∧
    (calculate_composite_score_pc profile rows = .ok (rows.map fun r => (r, compositeRaw w r))) ∧
    (∀ r v q m l, r.value_score = some v → r.quality_score = some q →
      r.momentum_score = some m → r.low_volatility_score = some l →
      compositeRaw w r = some (v * w.value_score + q * w.quality_score +
        m * w.momentum_score + l * w.low_volatility_score)) ∧
    (∀ r : ScoreRow, (r.value_score = none ∨ r.quality_score = none ∨
      r.momentum_score = none ∨ r.low_volatility_score = none) → compositeRaw w r = none) := by
  refine ⟨?_, ?_, ?_, ?_⟩
  · simp [calculate_composite_score_bt, h, compositeFill]
  · simp [calculate_composite_score_pc, h]
  · intro r v q m l hv hq hm hl
    unfold compositeRaw
    rw [hv, hq, hm, hl]
  · intro r h
    unfold compositeRaw
    rcases hv : r.value_score with _ | v <;> rcases hq : r.quality_score with _ | q <;>
      rcases hm : r.momentum_score with _ | m <;>
      rcases hl : r.low_volatility_score with _ | l <;> simp_all

/-- Counterexample to C3 as stated: on a row whose only non-null score is
`momentum = 5`, the `portfolio_constructor` implementation yields a null
composite, not the numeric `5 · 0.25 = 5/4` that the null-as-0 rule (and
the `backtester` implementation) produce. -/
theorem C3_composite_null_counterexample :
    calculate_composite_score_pc "balanced" [⟨"X", none, none, some 5, none⟩] =
      .ok [(⟨"X", none, none, some 5, none⟩, none)] ∧
    calculate_composite_score_bt "balanced" [⟨"X", none, none, some 5, none⟩] =
      .ok [(⟨"X", none, none, some 5, none⟩, 5/4)] ∧
    (none : Option ℚ) ≠ some (5/4) := by
  refine ⟨?_, ?_, by simp⟩ <;>
    norm_num [calculate_composite_score_pc, calculate_composite_score_bt,
      FACTOR_WEIGHTS, compositeRaw, compositeFill]

/-- Witness for the amended C3 at the balanced profile and a concrete row. -/
theorem C3_composite_null_amended_witness :
    FACTOR_WEIGHTS "balanced" = some ⟨25/100, 25/100, 25/100, 25/100⟩ ∧
    compositeRaw ⟨25/100, 25/100, 25/100, 25/100⟩ ⟨"X", none, none, some 5, none⟩ = none :=
  ⟨rfl, (C3_composite_null_amended "balanced" ⟨25/100, 25/100, 25/100, 25/100⟩ [] rfl).2.2.2
    ⟨"X", none, none, some 5, none⟩ (Or.inl rfl)⟩

/-- C7 (amended): both implementations of `calculate_composite_score` do
fail fast with an invalid-profile error (a `ValueError`, resp. a
`KeyError`) on an unrecognized risk profile; but `build_portfolio` catches
that exception and returns `None`, and `calculate_weights` with an
unrecognized weighting scheme falls off its `if/elif` chain and silently
returns `None` — neither fails loudly. -/
theorem C7_config_error_amended (profile scheme : String) (rows : List ScoreRow)
    (prices : List (String × List (Option ℚ))) (N : ℕ)
    (hp : FACTOR_WEIGHTS profile = none)
    (hs1 : scheme ≠ "equal") (hs2 : scheme ≠ "inverse_volatility") :
    (∃ e, calculate_composite_score_pc profile rows = .error e) ∧
    (∃ e, calculate_composite_score_bt profile rows = .error e) ∧
    build_portfolio rows profile N = none ∧
    calculate_weights prices scheme = .ok none := by
  refine ⟨⟨"ValueError: Invalid risk profile specified.", ?_⟩, ⟨"KeyError", ?_⟩, ?_, ?_⟩
  · simp [calculate_composite_score_pc, hp]
  · simp [calculate_composite_score_bt, hp]
  · simp [build_portfolio, calculate_composite_score_pc, hp]
  · simp [calculate_weights, hs1, hs2]

/-- Counterexample to C7 as stated: with an unrecognized scheme,
`calculate_weights` silently returns `None` (no exception), and with an
unrecognized profile `build_portfolio` returns `None` instead of
propagating the error. -/
theorem C7_config_error_counterexample :
    calculate_weights [("A", [some 1])] "bogus_scheme" = .ok none ∧
    build_portfolio [⟨"X", some 1, some 1, some 5, some 1⟩] "bogus_profile" 5 = none := by
  constructor
  · simp [calculate_weights]
  · simp [build_portfolio, calculate_composite_score_pc, FACTOR_WEIGHTS]

/-- Witness for the amended C7 at concrete unrecognized names. -/
theorem C7_config_error_amended_witness :
    FACTOR_WEIGHTS "growth" = none ∧ "momentum_tilt" ≠ "equal" ∧
    calculate_weights [] "momentum_tilt" = .ok none ∧ build_portfolio [] "growth" 5 = none := by
  refine ⟨rfl, by simp, ?_, ?_⟩
  · exact (C7_config_error_amended "growth" "momentum_tilt" [] [] 5 rfl (by simp) (by simp)).2.2.2
  · exact (C7_config_error_amended "growth" "momentum_tilt" [] [] 5 rfl (by simp) (by simp)).2.2.1

/-- C6: `calculate_performance_metrics` reports the not-available sentinel
for all four metrics on a series of length `< 2` (without raising — the
embedding is total), and on a series of length `≥ 2` whose standard
deviation is exactly `0` the reported Sharpe ratio is exactly `0`. -/
theorem C6_metrics_na_and_zero_vol_sharpe (returns : List ℚ) :
    (returns.length < 2 → calculate_performance_metrics returns = ⟨none, none, none, none⟩) ∧
    (2 ≤ returns.length → Real.sqrt ((sampleVar returns : ℚ) : ℝ) = 0 →
      (calculate_performance_metrics returns).sharpe = some 0) := by
  constructor
  · intro h
    unfold calculate_performance_metrics
    rw [if_pos h]
  · intro h hstd
    unfold calculate_performance_metrics
    rw [if_neg (by omega)]
    dsimp only
    rw [hstd, zero_mul]
    simp

/-- Witness for C6 on the empty series and the constant series `[1, 1]`. -/
theorem C6_metrics_na_and_zero_vol_sharpe_witness :
    calculate_performance_metrics [] = ⟨none, none, none, none⟩ ∧
    (calculate_performance_metrics [1, 1]).sharpe = some 0 :=
  ⟨(C6_metrics_na_and_zero_vol_sharpe []).1 (by simp),
   (C6_metrics_na_and_zero_vol_sharpe [1, 1]).2 (by norm_num)
     (by norm_num [sampleVar, sampleMean, Real.sqrt_zero])⟩

theorem zip_tail_fst_mem_dropLast :
    ∀ (dates : List Int) (p : Int × Int), p ∈ dates.zip dates.tail → p.1 ∈ dates.dropLast
  | [], p, h => by simp at h
  | [a], p, h => by simp at h
  | a :: b :: t, p, h => by
    rcases List.mem_cons.1 (by simpa using h) with h1 | h1
    · subst h1
      simp
    · have := zip_tail_fst_mem_dropLast (b :: t) p h1
      simp only [List.dropLast_cons₂, List.mem_cons]
      right
      exact this

theorem runPeriods_congr (profile scheme : String) (N : ℕ)
    (sf sf' : Int → List ScoreRow)
    (gp : List String → Int → Int → List (String × List (Option ℚ))) :
    ∀ pairs : List (Int × Int), (∀ p ∈ pairs, sf p.1 = sf' p.1) →
      runPeriods profile scheme N sf gp pairs = runPeriods profile scheme N sf' gp pairs
  | [], _ => rfl
  | (d, e) :: rest, h => by
    unfold runPeriods periodStep
    rw [h (d, e) (List.mem_cons_self _ _),
      runPeriods_congr profile scheme N sf sf' gp rest
        (fun p hp => h p (List.mem_cons_of_mem _ hp))]

theorem runPeriods_all_skip (profile scheme : String) (N : ℕ)
    (sf : Int → List ScoreRow)
    (gp : List String → Int → Int → List (String × List (Option ℚ))) :
    ∀ pairs : List (Int × Int),
      (∀ p ∈ pairs, periodStep profile scheme N sf gp p.1 p.2 = .ok []) →
      runPeriods profile scheme N sf gp pairs = .ok []
  | [], _ => rfl
  | (d, e) :: rest, h => by
    unfold runPeriods
    rw [h (d, e) (List.mem_cons_self _ _),
      runPeriods_all_skip profile scheme N sf gp rest
        (fun p hp => h p (List.mem_cons_of_mem _ hp))]
    rfl

/-- C5: a rebalance period whose constructed portfolio is absent
(`.ok none`) or empty, or whose trailing-price or forward-price fetch
returns an empty frame, contributes `[]` to the return series (it is
skipped, not zero-filled); and whenever every period is skipped,
`run_backtest` returns the explicit empty series `.ok []` without
raising. -/
theorem C5_skipped_periods_contribute_nothing (profile scheme : String) (N : ℕ)
    (sf : Int → List ScoreRow)
    (gp : List String → Int → Int → List (String × List (Option ℚ))) :
    (∀ d dEnd : Int, build_portfolio_for_date (sf d) profile N = .ok none →
      periodStep profile scheme N sf gp d dEnd = .ok []) ∧
    (∀ d dEnd : Int, build_portfolio_for_date (sf d) profile N = .ok (some []) →
      periodStep profile scheme N sf gp d dEnd = .ok []) ∧
    (∀ (d dEnd : Int) pf, build_portfolio_for_date (sf d) profile N = .ok (some pf) →
      tableEmpty (gp (pf.map fun p => p.1.ticker) (d - 365) d) = true →
      periodStep profile scheme N sf gp d dEnd = .ok []) ∧
    (∀ (d dEnd : Int) pf w, build_portfolio_for_date (sf d) profile N = .ok (some pf) →
      calculate_weights (gp (pf.map fun p => p.1.ticker) (d - 365) d) scheme = .ok (some w) →
      tableEmpty (gp (w.map fun p => p.1) d dEnd) = true →
      periodStep profile scheme N sf gp d dEnd = .ok []) ∧
    (∀ dates : List Int,
      (∀ p ∈ dates.zip dates.tail, periodStep profile scheme N sf gp p.1 p.2 = .ok []) →
      run_backtest profile scheme dates N sf gp = .ok []) := by
  refine ⟨?_, ?_, ?_, ?_, ?_⟩
  · intro d dEnd h
    unfold periodStep
    rw [h]
  · intro d dEnd h
    unfold periodStep
    rw [h]
    simp
  · intro d dEnd pf h hempty
    unfold periodStep
    rw [h]
    dsimp only
    by_cases hpf : pf = []
    · simp [hpf]
    · rw [if_neg hpf, if_pos hempty]
  · intro d dEnd pf w h hw hempty
    unfold periodStep
    rw [h]
    dsimp only
    by_cases hpf : pf = []
    · simp [hpf]
    · rw [if_neg hpf]
      by_cases hpw : tableEmpty (gp (pf.map fun p => p.1.ticker) (d - 365) d) = true
      · rw [if_pos hpw]
      · rw [if_neg hpw, hw]
        dsimp only
        rw [if_pos hempty]
  · intro dates h
    unfold run_backtest
    exact runPeriods_all_skip profile scheme N sf gp _ h

/-- Witness for C5: with no score records anywhere, both periods of the
two-date range are skipped and the backtest returns the empty series. -/
theorem C5_skipped_periods_contribute_nothing_witness :
    run_backtest "balanced" "equal" [0, 90] 20 (fun _ => []) (fun _ _ _ => []) = .ok [] :=
  (C5_skipped_periods_contribute_nothing "balanced" "equal" 20
    (fun _ => []) (fun _ _ _ => [])).2.2.2.2 [0, 90] (by
      intro p hp
      exact (C5_skipped_periods_contribute_nothing "balanced" "equal" 20
        (fun _ => []) (fun _ _ _ => [])).1 p.1 p.2 (by simp [build_portfolio_for_date]))

/-- C10: `run_backtest` iterates only over consecutive pairs of rebalance
dates, so the result does not depend on the score records of the last
quarter-start date (it serves only as a period end and is never rebalanced
on), and a date range producing fewer than two quarter-start dates yields
the empty series without constructing any portfolio. -/
theorem C10_last_rebalance_date_unused (profile scheme : String) (dates : List Int) (N : ℕ)
    (sf sf' : Int → List ScoreRow)
    (gp : List String → Int → Int → List (String × List (Option ℚ))) :
    (dates.length < 2 → run_backtest profile scheme dates N sf gp = .ok []) ∧
    ((∀ d ∈ dates.dropLast, sf d = sf' d) →
      run_backtest profile scheme dates N sf gp = run_backtest profile scheme dates N sf' gp) := by
  constructor
  · intro h
    match dates, h with
    | [], _ => rfl
    | [a], _ => rfl
  · intro h
    unfold run_backtest
    exact runPeriods_congr profile scheme N sf sf' gp _
      (fun p hp => h p.1 (zip_tail_fst_mem_dropLast dates p hp))

/-- Witness for C10: a single rebalance date produces the empty series
even when score records exist for it. -/
theorem C10_last_rebalance_date_unused_witness :
    run_backtest "balanced" "equal" [0] 20 (fun _ => sampleRows) (fun _ _ _ => []) = .ok [] :=
  (C10_last_rebalance_date_unused "balanced" "equal" [0] 20 (fun _ => sampleRows)
    (fun _ => sampleRows) (fun _ _ _ => [])).1 (by norm_num)

theorem sum_map_const_real {α : Type} (l : List α) (c : ℝ) :
    (l.map fun _ => c).sum = l.length * c := by
  induction l with
  | nil => simp
  | cons a t ih =>
    simp [ih]
    ring

theorem sum_map_div_real (l : List ℝ) (c : ℝ) :
    (l.map fun x => x / c).sum = l.sum / c := by
  induction l with
  | nil => simp
  | cons a t ih =>
    simp [ih]
    ring

theorem sum_getD_eq_sum_filterMap (l : List (String × Option ℝ)) :
    (l.map fun c => c.2.getD 0).sum = (l.filterMap fun c => c.2).sum := by
  induction l with
  | nil => rfl
  | cons a t ih =>
    rcases ha : a.2 with _ | v <;> simp [List.filterMap_cons, ha, ih]

theorem trailingVols_nonneg (prices : List (String × List (Option ℚ)))
    (p : String × Option ℝ) (hp : p ∈ trailingVols prices) (v : ℝ) (hv : p.2 = some v) :
    0 ≤ v := by
  unfold trailingVols at hp
  obtain ⟨c, hc, rfl⟩ := List.mem_map.1 hp
  dsimp only at hv
  unfold stdRealO at hv
  split at hv
  · rw [Option.some_inj] at hv
    rw [← hv]
    exact Real.sqrt_nonneg _
  · exact absurd hv (by simp)

theorem invVols_pos (prices : List (String × List (Option ℚ)))
    (x : ℝ) (hx : x ∈ (invVols prices).filterMap fun c => c.2) : 0 < x := by
  obtain ⟨c, hc, hcx⟩ := List.mem_filterMap.1 hx
  unfold invVols at hc
  obtain ⟨c', hc', rfl⟩ := List.mem_map.1 hc
  dsimp only at hcx
  obtain ⟨u, hu, rfl⟩ := Option.map_eq_some'.1 hcx
  unfold volsReplaced at hc'
  obtain ⟨c'', hc'', rfl⟩ := List.mem_map.1 hc'
  dsimp only at hu
  obtain ⟨w, hw, hgw⟩ := Option.bind_eq_some.1 hu
  by_cases h0 : w = 0
  · rw [if_pos h0] at hgw
    exact absurd hgw (by simp)
  · rw [if_neg h0] at hgw
    rw [Option.some_inj] at hgw
    subst hgw
    have := trailingVols_nonneg prices c'' hc'' w hw
    have hwpos : 0 < w := lt_of_le_of_ne this (Ne.symm h0)
    exact inv_pos.2 hwpos

theorem invVolSum_pos (prices : List (String × List (Option ℚ)))
    (h : ∃ p ∈ trailingVols prices, ∃ v, p.2 = some v ∧ v ≠ 0) :
    0 < invVolSum prices := by
  obtain ⟨p, hp, v, hv, hvne⟩ := h
  have hmem : (p.1, some v⁻¹) ∈ invVols prices := by
    unfold invVols volsReplaced
    rw [List.map_map]
    refine List.mem_map.2 ⟨p, hp, ?_⟩
    simp [hv, hvne]
  have hx : v⁻¹ ∈ (invVols prices).filterMap fun c => c.2 :=
    List.mem_filterMap.2 ⟨(p.1, some v⁻¹), hmem, rfl⟩
  have hne : ((invVols prices).filterMap fun c => c.2) ≠ [] := List.ne_nil_of_mem hx
  have hsum : 0 < ((invVols prices).filterMap fun c => c.2).sum :=
    List.sum_pos _ (fun x hx => invVols_pos prices x hx) hne
  unfold invVolSum
  rw [sum_getD_eq_sum_filterMap]
  exact hsum

set_option maxHeartbeats 1000000 in
theorem wTable_trailingVols :
    trailingVols wTable = [("A", some 0), ("B", some (Real.sqrt (1/8)))] := by
  norm_num [trailingVols, wTable, pctChangeO, pctChangeO.go, fullRows, numRows,
    stdRealO, sampleVar, sampleMean, List.range_succ, List.filter, Real.sqrt_zero]

/-- C4: under the `equal` scheme on a non-empty frame, every holding's
weight is `1/n` and the weights sum to `1`; under `inverse_volatility`,
a holding whose trailing volatility is exactly `0` receives a null weight,
every holding with non-zero volatility `σ` receives `σ⁻¹ / Σσ⁻¹`
(proportional to `1/σ`), and whenever at least one holding has a defined
non-zero volatility the non-null weights sum to exactly `1`. -/
theorem C4_weight_schemes (prices : List (String × List (Option ℚ))) :
    (prices ≠ [] → ∃ l, calculate_weights prices "equal" = .ok (some l) ∧
      (∀ c ∈ l, c.2 = some ((prices.length : ℝ)⁻¹)) ∧
      (l.map fun c => c.2.getD 0).sum = 1) ∧
    (∃ l, calculate_weights prices "inverse_volatility" = .ok (some l) ∧
      (∀ i : ℕ, ∀ t : String, (trailingVols prices)[i]? = some (t, some 0) →
        l[i]? = some (t, none)) ∧
      (∀ (i : ℕ) (t : String) (v : ℝ), (trailingVols prices)[i]? = some (t, some v) → v ≠ 0 →
        l[i]? = some (t, some (v⁻¹ / invVolSum prices))) ∧
      ((∃ p ∈ trailingVols prices, ∃ v, p.2 = some v ∧ v ≠ 0) →
        (l.filterMap fun c => c.2).sum = 1)) := by
  constructor
  · intro hne
    unfold calculate_weights
    rw [if_pos rfl, if_neg (fun h => hne (List.length_eq_zero.1 h))]
    refine ⟨_, rfl, ?_, ?_⟩
    · intro c hc
      obtain ⟨c', hc', rfl⟩ := List.mem_map.1 hc
      rfl
    · rw [List.map_map]
      have hlen : (prices.length : ℝ) ≠ 0 :=
        Nat.cast_ne_zero.2 (fun h => hne (List.length_eq_zero.1 h))
      exact (sum_map_const_real prices _).trans (mul_inv_cancel₀ hlen)
  · refine ⟨inverse_volatility_weights prices, ?_, ?_, ?_, ?_⟩
    · unfold calculate_weights
      rw [if_neg (by simp), if_pos rfl]
    · intro i t h
      unfold inverse_volatility_weights invVols volsReplaced
      rw [List.getElem?_map, List.getElem?_map, List.getElem?_map, h]
      simp
    · intro i t v h hvne
      unfold inverse_volatility_weights invVols volsReplaced
      rw [List.getElem?_map, List.getElem?_map, List.getElem?_map, h]
      simp [hvne]
    · intro hex
      have hS := invVolSum_pos prices hex
      have h1 : ((inverse_volatility_weights prices).filterMap fun c => c.2) =
          ((invVols prices).filterMap fun c => c.2).map fun x => x / invVolSum prices := by
        unfold inverse_volatility_weights
        rw [List.filterMap_map, List.map_filterMap]
        rfl
      rw [h1, sum_map_div_real]
      rw [← sum_getD_eq_sum_filterMap]
      exact div_self (ne_of_gt hS)

/-- Witness for C4 on a concrete two-column frame in which column `A` has
exactly zero trailing volatility and column `B` does not. -/
theorem C4_weight_schemes_witness :
    wTable ≠ [] ∧
    (∃ l, calculate_weights wTable "equal" = .ok (some l) ∧
      (∀ c ∈ l, c.2 = some ((wTable.length : ℝ)⁻¹)) ∧
      (l.map fun c => c.2.getD 0).sum = 1) ∧
    (∃ l, calculate_weights wTable "inverse_volatility" = .ok (some l) ∧
      l[0]? = some ("A", none) ∧
      (l.filterMap fun c => c.2).sum = 1) := by
  refine ⟨by simp [wTable], (C4_weight_schemes wTable).1 (by simp [wTable]), ?_⟩
  obtain ⟨l, hl, hz, hprop, hsum⟩ := (C4_weight_schemes wTable).2
  refine ⟨l, hl, ?_, ?_⟩
  · refine hz 0 "A" ?_
    rw [wTable_trailingVols]
    rfl
  · refine hsum ⟨("B", some (Real.sqrt (1/8))), ?_, Real.sqrt (1/8), rfl, ?_⟩
    · rw [wTable_trailingVols]
      simp
    · rw [Real.sqrt_ne_zero']
      norm_num

/-- C9 (amended): a trading day contributes an entry to a holding period's
return series only when EVERY fetched holding has an observable return that
day (`dropna` on the returns frame drops any row with a missing value); the
entry is the NaN-skipping sum `Σ weight_i · return_i`, a null or missing
weight contributing `0`.  Days on which only some holdings have observable
returns are dropped entirely, not computed from the available holdings. -/
theorem C9_period_daily_returns_amended (w : List (String × Option ℝ))
    (prices : List (String × List (Option ℚ))) :
    periodReturns w prices = periodReturnsAllDays w prices := by
  unfold periodReturns periodReturnsAllDays fullRows
  dsimp only
  refine List.map_congr_left ?_
  intro i hi
  have hall := (List.mem_filter.1 hi).2
  rw [List.all_eq_true] at hall
  refine congrArg List.sum (List.map_congr_left ?_)
  intro c hc
  have hsome := hall c hc
  rw [Option.isSome_iff_exists] at hsome
  obtain ⟨r, hr⟩ := hsome
  rw [hr]
  rcases hl : lookupW w c.1 with _ | w'
  · simp
  · rfl

/-- Counterexample to C9 as stated: with equal weights and a forward-price
frame in which holding `B` misses one price, days 2 and 3 have an
observable return for `A` but the code's period series contains only the
single all-holdings day, whereas the claim's rule would produce three
entries. -/
theorem C9_period_daily_returns_counterexample :
    periodReturns eqWeights gapTable = [1] ∧
    periodReturnsClaimed eqWeights gapTable = [1, 1/2, 1/2] ∧
    periodReturns eqWeights gapTable ≠ periodReturnsClaimed eqWeights gapTable := by
  have h1 : periodReturns eqWeights gapTable = [1] := by
    simp [periodReturns, pctChangeO, pctChangeO.go, fullRows, numRows, lookupW,
      eqWeights, gapTable, List.range_succ, List.filter, List.find?]
    norm_num
  have h2 : periodReturnsClaimed eqWeights gapTable = [1, 1/2, 1/2] := by
    simp [periodReturnsClaimed, pctChangeO, pctChangeO.go, numRows, lookupW,
      eqWeights, gapTable, List.range_succ, List.filter, List.find?]
    norm_num
  refine ⟨h1, h2, ?_⟩
  rw [h1, h2]
  simp

/-- C1 (amended): for every as-of date `D` the factor scores depend on the
price table only through the rows in the window `[D - 550, D]` — in
particular, changing or adding any price row dated after `D` leaves the
`FactorScoreRecord`s for `D` unchanged.  (The fundamental half of the
original claim fails: the snapshot query takes each stock's most recent
row over the WHOLE table, not at-or-before `D`; see the counterexample.) -/
theorem C1_point_in_time_amended (D : Int) (db db' : DB)
    (hs : db.stocks = db'.stocks) (hf : db.fundamental_data = db'.fundamental_data)
    (hp : pricesInWindow D db = pricesInWindow D db') :
    calculate_factors_for_date D db = calculate_factors_for_date D db' := by
  unfold calculate_factors_for_date
  rw [hs, hf, hp]

/-- Witness for the amended C1: adding a price row dated 40 (after the
as-of date 20) leaves the scores for date 20 unchanged. -/
theorem C1_point_in_time_amended_witness :
    db1p.daily_prices = db1.daily_prices ++ [⟨1, 40, 999⟩] ∧ (20 : Int) < 40 ∧
    calculate_factors_for_date 20 db1 = calculate_factors_for_date 20 db1p :=
  ⟨rfl, by norm_num,
    C1_point_in_time_amended 20 db1 db1p rfl rfl
      (by norm_num [pricesInWindow, db1, db1p, List.filter])⟩

set_option maxHeartbeats 2000000 in
/-- Counterexample to C1 as stated: `db2` differs from `db1` only by one
fundamental row recorded at day 30 > 20, yet the scores computed for the
as-of date 20 change (stock 1's value score flips from 1 to 6), because
the fundamentals query selects each stock's latest snapshot over the whole
table — future rows included. -/
theorem C1_point_in_time_counterexample :
    db2.fundamental_data = db1.fundamental_data ++ [fundAfut] ∧
    (20 : Int) < fundAfut.date_recorded ∧
    calculate_factors_for_date 20 db1 ≠ calculate_factors_for_date 20 db2 := by
  have h1 : calculate_factors_for_date 20 db1 =
      some [⟨1, some 1, some 1, none, none, 20⟩, ⟨2, some 6, some 6, none, none, 20⟩] := by
    norm_num [calculate_factors_for_date, calcCore, pricesInWindow, fundamentalsSnapshot,
      maxDateRecorded, db1, fundA, fundB, stockCloses, returnK, momentumRaw, volatilityRaw,
      stdRealO, pctChangeQ, mean2, rankAvg, rankLt, rankTie, List.countP_cons, List.countP_nil,
      qcutScores, pandasQuantile, uniqueFirst, searchsortedLeft,
      List.insertionSort, List.orderedInsert, List.range_succ,
      List.filter, List.max?, List.max?_cons, List.max?_nil, List.find?, List.getLast?]
    intro h
    simp at h
  have h2 : calculate_factors_for_date 20 db2 =
      some [⟨1, some 6, some 1, none, none, 20⟩, ⟨2, some 1, some 6, none, none, 20⟩] := by
    norm_num [calculate_factors_for_date, calcCore, pricesInWindow, fundamentalsSnapshot,
      maxDateRecorded, db1, db2, fundA, fundB, fundAfut, stockCloses, returnK, momentumRaw,
      volatilityRaw, stdRealO, pctChangeQ, mean2, rankAvg, rankLt, rankTie, List.countP_cons,
      List.countP_nil, qcutScores, pandasQuantile, uniqueFirst, searchsortedLeft,
      List.insertionSort, List.orderedInsert, List.range_succ,
      List.filter, List.max?, List.max?_cons, List.max?_nil, List.find?, List.getLast?]
    intro h
    simp at h
  refine ⟨rfl, by norm_num [fundAfut], ?_⟩
  rw [h1, h2]
  simp

/-- C8: for every cross-section, the quantile-scoring step (`qcut` of the
factor ranks into 6 buckets, `duplicates='drop'`) assigns each stock a
bucket score that is an integer in `[1,6]` or null, and (being a total
function) never raises — including when duplicate rank values collapse
adjacent bucket edges; consequently every score field of every record
produced by `calculate_factors_for_date` is an integer in `[1,6]` or null. -/
theorem C8_qcut_bucket_range :
    (∀ xs : List ℚ, ∀ s ∈ qcutScores xs, scoreOK s) ∧
    (∀ (D : Int) (db : DB) recs, calculate_factors_for_date D db = some recs →
      ∀ r ∈ recs, scoreOK r.value_score ∧ scoreOK r.quality_score ∧
        scoreOK r.momentum_score ∧ scoreOK r.low_volatility_score) :=
  ⟨fun xs s hs => qcut_scoreOK xs s hs, calc_scores_scoreOK⟩

/-- Witness for C8 at the concrete cross-section of ranks `[1, 2]`. -/
theorem C8_qcut_bucket_range_witness : scoreOK (some 1) :=
  C8_qcut_bucket_range.1 [1, 2] (some 1) (by
    norm_num [qcutScores, pandasQuantile, uniqueFirst, searchsortedLeft,
      List.insertionSort, List.orderedInsert, List.range_succ])

end PFB
